import Mathlib

/-
Verification of the relative-ephemeris comparison module (src/oem/compare.py).

The module is embedded shallowly: Python classes become Lean structures,
properties become functions, raised exceptions become values of an explicit
error type carried in `Except`.  Epochs are rationals (totally ordered, exact);
state vectors are triples of reals, with the Euclidean norm written through
`Real.sqrt` exactly as `np.linalg.norm` computes it for 3-vectors.
-/

/-- A 3-dimensional vector with real components, standing for the numpy
arrays used as position and velocity vectors in compare.py. -/
structure Vec3 where
  x : ℝ
  y : ℝ
  z : ℝ

/-- Componentwise subtraction of 3-vectors (numpy array subtraction). -/
def Vec3.sub (a b : Vec3) : Vec3 :=
  ⟨a.x - b.x, a.y - b.y, a.z - b.z⟩

/-- Dot product of 3-vectors (row-by-vector product in `R.dot(vector)`). -/
def Vec3.dot (a b : Vec3) : ℝ :=
  a.x * b.x + a.y * b.y + a.z * b.z

/-- Cross product of 3-vectors (`np.cross`). -/
def Vec3.cross (a b : Vec3) : Vec3 :=
  ⟨a.y * b.z - a.z * b.y, a.z * b.x - a.x * b.z, a.x * b.y - a.y * b.x⟩

/-- Componentwise division of a 3-vector by a scalar (numpy `v / c`). -/
noncomputable def Vec3.divs (v : Vec3) (c : ℝ) : Vec3 :=
  ⟨v.x / c, v.y / c, v.z / c⟩

/-- Euclidean norm of a 3-vector, as computed by `np.linalg.norm`. -/
noncomputable def vnorm (v : Vec3) : ℝ :=
  Real.sqrt (v.x ^ 2 + v.y ^ 2 + v.z ^ 2)

/-- Modelled from the spec: the `State` collaborator (not under src/) exposes
fields epoch, frame (string), center (string), position (3-vector),
velocity (3-vector).  Epochs are totally ordered; we embed them as rationals. -/
structure State where
  epoch : ℚ
  frame : String
  center : String
  position : Vec3
  velocity : Vec3

/-- The exceptions raised by compare.py and by its collaborators, as an
explicit error type.  `incompatibleStates` and `unsupported` carry the exact
fixed message strings raised by the source; `outOfRange` carries the epoch
interpolated into the message of SegmentCompare.__call__ (the message holds
nothing else about the compare); `invalidStepSize` stands for the error the
spec assigns to a non-positive step in the external `time_range`;
`spanUnpack` stands for the TypeError Python raises when `*self._span`
unpacks `None`. -/
inductive OemError where
  | incompatibleStates (msg : String)
  | unsupported (msg : String)
  | outOfRange (epoch : ℚ)
  | invalidStepSize
  | spanUnpack
deriving DecidableEq

/-- The fixed message of the ValueError raised by StateCompare.__init__. -/
def stateCompareMsg : String :=
  "Incompatible states: epoch, frame, or central body mismatch."

/-- The fixed message of the ValueError raised by SegmentCompare.__init__. -/
def segmentCompareMsg : String :=
  "Incompatible states: frame or central body mismatch."

/-- The fixed message of the NotImplementedError raised by
StateCompare._require_inertial. -/
def requireInertialMsg : String :=
  "Velocity compares not supported for non-inertial frames. To override, set ._inertial=True."

/-- The REFERENCE_FRAMES["inertial"] list of compare.py. -/
def REFERENCE_FRAMES_inertial : List String :=
  ["EME2000", "GCRF", "ICRF", "MCI", "TEME", "TOD"]

/-- The REFERENCE_FRAMES["rotating"] list of compare.py. -/
def REFERENCE_FRAMES_rotating : List String :=
  ["GRC", "ITRF2000", "ITRF-93", "ITRF-97", "TDR"]

/-- Python str.upper restricted to ASCII, which covers every frame
identifier in REFERENCE_FRAMES. -/
def pyUpper (s : String) : String :=
  ⟨s.data.map Char.toUpper⟩

/-- The frame classification of StateCompare.__init__ (lines 121-131).
First component: the `_inertial` flag.  Second component: whether the
nonstandard-frame UserWarning was emitted. -/
def classifyFrame (frame : String) : Bool × Bool :=
  if pyUpper frame ∈ REFERENCE_FRAMES_inertial then (true, false)
  else if pyUpper frame ∈ REFERENCE_FRAMES_rotating then (false, false)
  else (true, true)

/-- The comparison of two Cartesian states, after successful construction:
the stored origin and target and the computed `_inertial` flag. -/
structure StateCompare where
  _origin : State
  _target : State
  _inertial : Bool

/-- StateCompare.__init__: validates epoch/frame/center equality, stores the
states and classifies the origin frame; on mismatch raises ValueError with a
fixed message. -/
def mkStateCompare (origin target : State) : Except OemError StateCompare :=
  if origin.epoch = target.epoch ∧ origin.frame = target.frame
      ∧ origin.center = target.center then
    .ok ⟨origin, target, (classifyFrame origin.frame).1⟩
  else
    .error (.incompatibleStates stateCompareMsg)

/-- StateCompare._require_inertial. -/
def StateCompare.requireInertial (sc : StateCompare) : Except OemError Unit :=
  if sc._inertial then .ok () else .error (.unsupported requireInertialMsg)

/-- The rows of the RIC rotation matrix of StateCompare._to_ric
(lines 146-152), in source order: radial, in-track, cross-track. -/
noncomputable def ricRows (origin : State) : Vec3 × Vec3 × Vec3 :=
  let cross_track := Vec3.cross origin.position origin.velocity
  let in_track := Vec3.cross cross_track origin.position
  (Vec3.divs origin.position (vnorm origin.position),
   Vec3.divs in_track (vnorm in_track),
   Vec3.divs cross_track (vnorm cross_track))

/-- `R.dot(vector)` for the RIC rotation: each component is a row of the
rotation dotted with the input vector. -/
noncomputable def ricApply (origin : State) (vector : Vec3) : Vec3 :=
  ⟨Vec3.dot (ricRows origin).1 vector,
   Vec3.dot (ricRows origin).2.1 vector,
   Vec3.dot (ricRows origin).2.2 vector⟩

/-- StateCompare._to_ric: requires the inertial classification, then applies
the RIC rotation built from the origin state. -/
noncomputable def StateCompare.toRic (sc : StateCompare) (vector : Vec3) : Except OemError Vec3 :=
  match sc.requireInertial with
  | .error e => .error e
  | .ok _ => .ok (ricApply sc._origin vector)

/-- StateCompare.position (property): relative position vector. -/
def StateCompare.position (sc : StateCompare) : Except OemError Vec3 :=
  .ok (Vec3.sub sc._target.position sc._origin.position)

/-- StateCompare.range (property): norm of the relative position. -/
noncomputable def StateCompare.range (sc : StateCompare) : Except OemError ℝ :=
  .ok (vnorm (Vec3.sub sc._target.position sc._origin.position))

/-- StateCompare.velocity (property): relative velocity vector, guarded by
_require_inertial. -/
def StateCompare.velocity (sc : StateCompare) : Except OemError Vec3 :=
  match sc.requireInertial with
  | .error e => .error e
  | .ok _ => .ok (Vec3.sub sc._target.velocity sc._origin.velocity)

/-- StateCompare.range_rate (property): norm of the relative velocity,
guarded by _require_inertial. -/
noncomputable def StateCompare.range_rate (sc : StateCompare) : Except OemError ℝ :=
  match sc.requireInertial with
  | .error e => .error e
  | .ok _ => .ok (vnorm (Vec3.sub sc._target.velocity sc._origin.velocity))

/-- StateCompare.position_ric (property): `self._to_ric(self.position)`. -/
noncomputable def StateCompare.position_ric (sc : StateCompare) : Except OemError Vec3 :=
  match sc.position with
  | .error e => .error e
  | .ok p => sc.toRic p

/-- StateCompare.velocity_ric (property): `self._to_ric(self.velocity)`. -/
noncomputable def StateCompare.velocity_ric (sc : StateCompare) : Except OemError Vec3 :=
  match sc.velocity with
  | .error e => .error e
  | .ok v => sc.toRic v

/-- Modelled from the spec: the EphemerisSegment collaborator (not under
src/) exposes a metadata record with string fields REF_FRAME and
CENTER_NAME, a validity span (a closed epoch interval), and an evaluation
operation mapping an epoch to a State.  The two metadata keys read by
compare.py become the two string fields. -/
structure EphemerisSegment where
  REF_FRAME : String
  CENTER_NAME : String
  span : ℚ × ℚ
  eval : ℚ → State

/-- Modelled from the spec: oem.tools.epoch_span_overlap (not under src/) is
the intersection of two closed spans, or the empty value (None) when they do
not intersect. -/
def epoch_span_overlap (a b : ℚ × ℚ) : Option (ℚ × ℚ) :=
  let lo := max a.1 b.1
  let hi := min a.2 b.2
  if lo ≤ hi then some (lo, hi) else none

/-- Modelled from the spec: oem.tools.epoch_span_contains (not under src/)
tests closed-interval membership of an epoch in a span. -/
def epoch_span_contains (s : ℚ × ℚ) (epoch : ℚ) : Bool :=
  decide (s.1 ≤ epoch) && decide (epoch ≤ s.2)

/-- Modelled from the spec: oem.tools.time_range (not under src/) generates
epochs at uniform intervals of `step` spanning [start, stop], inclusive of
the span bounds; a non-positive step fails with an InvalidArgumentError. -/
def time_range (start stop step : ℚ) : Except OemError (List ℚ) :=
  if step ≤ 0 then .error .invalidStepSize
  else
    let n : ℕ := (⌊(stop - start) / step⌋).toNat
    let grid := (List.range (n + 1)).map (fun k => start + (k : ℚ) * step)
    .ok (if start + (n : ℚ) * step < stop then grid ++ [stop] else grid)

/-- The comparison of two EphemerisSegment, after successful construction:
the computed overlap span (None when the segment spans do not intersect) and
the stored segments. -/
structure SegmentCompare where
  _span : Option (ℚ × ℚ)
  _origin : EphemerisSegment
  _target : EphemerisSegment

/-- SegmentCompare.__init__: validates REF_FRAME and CENTER_NAME equality,
computes the overlap span; on mismatch raises ValueError with a fixed
message. -/
def mkSegmentCompare (origin target : EphemerisSegment) : Except OemError SegmentCompare :=
  if origin.REF_FRAME = target.REF_FRAME ∧ origin.CENTER_NAME = target.CENTER_NAME then
    .ok ⟨epoch_span_overlap origin.span target.span, origin, target⟩
  else
    .error (.incompatibleStates segmentCompareMsg)

/-- SegmentCompare.__contains__: the span is not None and contains the
epoch. -/
def SegmentCompare.contains (sc : SegmentCompare) (epoch : ℚ) : Bool :=
  match sc._span with
  | none => false
  | some s => epoch_span_contains s epoch

/-- Modelled from the spec: State subtraction (State.__sub__ is not under
src/).  The StateCompare docstring in src/oem/compare.py documents
`origin - target` as equivalent to `StateCompare(origin, target)`, and the
spec renders the subtraction in segment evaluation as
`StateCompare(target_state, origin_state)`; both give `a - b =
StateCompare(a, b)`, the minuend becoming the compare-frame origin. -/
def State.sub (a b : State) : Except OemError StateCompare :=
  mkStateCompare a b

/-- SegmentCompare.__call__: out-of-range epochs raise ValueError carrying
the epoch; otherwise the two segments are evaluated and differenced as
`self._target(epoch) - self._origin(epoch)`. -/
def SegmentCompare.call (sc : SegmentCompare) (epoch : ℚ) : Except OemError StateCompare :=
  if sc.contains epoch = false then .error (.outOfRange epoch)
  else State.sub (sc._target.eval epoch) (sc._origin.eval epoch)

/-- The body of the SegmentCompare.steps generator: each generated epoch is
evaluated through SegmentCompare.__call__, stopping at the first failure. -/
def evalSteps (sc : SegmentCompare) : List ℚ → Except OemError (List StateCompare)
  | [] => .ok []
  | e :: rest =>
    match sc.call e with
    | .error err => .error err
    | .ok c =>
      match evalSteps sc rest with
      | .error err => .error err
      | .ok cs => .ok (c :: cs)

/-- SegmentCompare.steps: unpacks `*self._span` (a TypeError when the span
is None), generates the uniform epochs, and evaluates the compare at each of
them. -/
def SegmentCompare.steps (sc : SegmentCompare) (step_size : ℚ) : Except OemError (List StateCompare) :=
  match sc._span with
  | none => .error .spanUnpack
  | some (a, b) =>
    match time_range a b step_size with
    | .error err => .error err
    | .ok epochs => evalSteps sc epochs

/-- SegmentCompare.is_empty (property): the overlap span is None. -/
def SegmentCompare.is_empty (sc : SegmentCompare) : Bool :=
  sc._span.isNone

/-- Example origin state in an inertial frame (spec scenario 1). -/
def stA : State := ⟨0, "EME2000", "EARTH", ⟨7000, 0, 0⟩, ⟨0, 7, 0⟩⟩

/-- Example target state sharing epoch, frame and center with stA. -/
def stB : State := ⟨0, "EME2000", "EARTH", ⟨7000, 10, 0⟩, ⟨0, 7, 1⟩⟩

/-- Example state differing from stA only in its epoch. -/
def stEpochDiff : State := ⟨1, "EME2000", "EARTH", ⟨7000, 0, 0⟩, ⟨0, 7, 0⟩⟩

/-- Example state differing from stA only in its frame. -/
def stFrameDiff : State := ⟨0, "GCRF", "EARTH", ⟨7000, 0, 0⟩, ⟨0, 7, 0⟩⟩

/-- Example origin state in the rotating frame ITRF2000. -/
def stArot : State := ⟨0, "ITRF2000", "EARTH", ⟨7000, 0, 0⟩, ⟨0, 7, 0⟩⟩

/-- Example target state in the rotating frame ITRF2000. -/
def stBrot : State := ⟨0, "ITRF2000", "EARTH", ⟨7000, 10, 0⟩, ⟨0, 7, 1⟩⟩

/-- Example origin state in the rotating frame TDR. -/
def stTdrA : State := ⟨0, "TDR", "EARTH", ⟨1, 0, 0⟩, ⟨0, 1, 0⟩⟩

/-- Example target state in the rotating frame TDR. -/
def stTdrB : State := ⟨0, "TDR", "EARTH", ⟨2, 0, 0⟩, ⟨0, 1, 0⟩⟩

/-- The StateCompare produced from stArot and stBrot. -/
def scRotEx : StateCompare := ⟨stArot, stBrot, false⟩

/-- The StateCompare produced from stTdrA and stTdrB. -/
def scTdrEx : StateCompare := ⟨stTdrA, stTdrB, false⟩

/-- Example origin state with non-parallel position and velocity, for the
RIC basis. -/
def stRic : State := ⟨0, "EME2000", "EARTH", ⟨1, 0, 0⟩, ⟨0, 1, 0⟩⟩

/-- Example segment with span [0, 2]; its states sit at x = 1. -/
def segOA : EphemerisSegment :=
  ⟨"EME2000", "EARTH", (0, 2), fun e => ⟨e, "EME2000", "EARTH", ⟨1, 2, 3⟩, ⟨1, 0, 0⟩⟩⟩

/-- Example segment with span [1, 3]; its states sit at x = 4. -/
def segTA : EphemerisSegment :=
  ⟨"EME2000", "EARTH", (1, 3), fun e => ⟨e, "EME2000", "EARTH", ⟨4, 2, 3⟩, ⟨1, 0, 0⟩⟩⟩

/-- The SegmentCompare of segOA and segTA; overlap [1, 2]. -/
def scPairEx : SegmentCompare := ⟨some (1, 2), segOA, segTA⟩

/-- A SegmentCompare over the same segments whose span field is [0, 2],
used to compare the out-of-range failures of two compares with different
spans. -/
def scSpanB : SegmentCompare := ⟨some (0, 2), segOA, segTA⟩

/-- Example segment with span [0, 1]. -/
def segE1 : EphemerisSegment :=
  ⟨"EME2000", "EARTH", (0, 1), fun e => ⟨e, "EME2000", "EARTH", ⟨1, 2, 3⟩, ⟨1, 0, 0⟩⟩⟩

/-- Example segment with span [2, 3], disjoint from segE1. -/
def segE2 : EphemerisSegment :=
  ⟨"EME2000", "EARTH", (2, 3), fun e => ⟨e, "EME2000", "EARTH", ⟨4, 2, 3⟩, ⟨1, 0, 0⟩⟩⟩

/-- The SegmentCompare of segE1 and segE2: the spans are disjoint, so the
overlap is None. -/
def scEmptyEx : SegmentCompare := ⟨none, segE1, segE2⟩

lemma mkStateCompare_ok_inv {o t : State} {sc : StateCompare}
    (h : mkStateCompare o t = Except.ok sc) :
    sc = ⟨o, t, (classifyFrame o.frame).1⟩ ∧
      o.epoch = t.epoch ∧ o.frame = t.frame ∧ o.center = t.center := by
  unfold mkStateCompare at h
  by_cases hc : o.epoch = t.epoch ∧ o.frame = t.frame ∧ o.center = t.center
  · rw [if_pos hc] at h
    exact ⟨(Except.ok.inj h).symm, hc.1, hc.2.1, hc.2.2⟩
  · rw [if_neg hc] at h
    exact absurd h (by simp)

lemma inertial_not_rotating {s : String} (h : s ∈ REFERENCE_FRAMES_inertial) :
    s ∉ REFERENCE_FRAMES_rotating := by
  simp only [REFERENCE_FRAMES_inertial, List.mem_cons, List.not_mem_nil,
    or_false] at h
  rcases h with rfl | rfl | rfl | rfl | rfl | rfl <;> decide

lemma classifyFrame_fst_false_iff (f : String) :
    (classifyFrame f).1 = false ↔ pyUpper f ∈ REFERENCE_FRAMES_rotating := by
  unfold classifyFrame
  by_cases h1 : pyUpper f ∈ REFERENCE_FRAMES_inertial
  · simp [h1, inertial_not_rotating h1]
  · by_cases h2 : pyUpper f ∈ REFERENCE_FRAMES_rotating <;> simp [h1, h2]

/-- Claim C1: for states sharing epoch, frame and center, StateCompare
construction succeeds, its position is the componentwise difference
target.position minus origin.position, and its range is the Euclidean norm
of that difference. -/
theorem C1_position_is_diff_range_is_norm (o t : State)
    (he : o.epoch = t.epoch) (hf : o.frame = t.frame) (hc : o.center = t.center) :
    ∃ sc, mkStateCompare o t = Except.ok sc ∧
      sc.position = Except.ok
        (Vec3.mk (t.position.x - o.position.x) (t.position.y - o.position.y)
          (t.position.z - o.position.z)) ∧
      sc.range = Except.ok
        (Real.sqrt ((t.position.x - o.position.x) ^ 2
          + (t.position.y - o.position.y) ^ 2
          + (t.position.z - o.position.z) ^ 2)) := by
  refine ⟨⟨o, t, (classifyFrame o.frame).1⟩, ?_, rfl, rfl⟩
  unfold mkStateCompare
  rw [if_pos ⟨he, hf, hc⟩]

/-- Witness for C1 at the concrete states stA and stB. -/
theorem C1_witness :
    stA.epoch = stB.epoch ∧ stA.frame = stB.frame ∧ stA.center = stB.center ∧
    (∃ sc, mkStateCompare stA stB = Except.ok sc ∧
      sc.position = Except.ok
        (Vec3.mk (stB.position.x - stA.position.x)
          (stB.position.y - stA.position.y)
          (stB.position.z - stA.position.z)) ∧
      sc.range = Except.ok
        (Real.sqrt ((stB.position.x - stA.position.x) ^ 2
          + (stB.position.y - stA.position.y) ^ 2
          + (stB.position.z - stA.position.z) ^ 2))) :=
  ⟨rfl, rfl, rfl, C1_position_is_diff_range_is_norm stA stB rfl rfl rfl⟩

/-- Claim C2: on a validly constructed StateCompare with no override,
position and range are always available, while velocity, velocity_ric and
range_rate fail with the unsupported-operation error exactly when the origin
frame is classified rotating. -/
theorem C2_velocity_guards_iff_rotating (o t : State) (sc : StateCompare)
    (h : mkStateCompare o t = Except.ok sc) :
    (∃ p, sc.position = Except.ok p) ∧ (∃ r, sc.range = Except.ok r) ∧
    (sc.velocity = Except.error (OemError.unsupported requireInertialMsg) ↔
      pyUpper o.frame ∈ REFERENCE_FRAMES_rotating) ∧
    (sc.velocity_ric = Except.error (OemError.unsupported requireInertialMsg) ↔
      pyUpper o.frame ∈ REFERENCE_FRAMES_rotating) ∧
    (sc.range_rate = Except.error (OemError.unsupported requireInertialMsg) ↔
      pyUpper o.frame ∈ REFERENCE_FRAMES_rotating) := by
  obtain ⟨rfl, -, -, -⟩ := mkStateCompare_ok_inv h
  have hrot := classifyFrame_fst_false_iff o.frame
  refine ⟨⟨_, rfl⟩, ⟨_, rfl⟩, ?_, ?_, ?_⟩ <;>
    cases hb : (classifyFrame o.frame).1 <;>
      simp [StateCompare.velocity, StateCompare.velocity_ric,
        StateCompare.range_rate, StateCompare.requireInertial,
        StateCompare.toRic, hb, ← hrot]

/-- Witness for C2 at the concrete rotating-frame states stArot and stBrot. -/
theorem C2_witness :
    mkStateCompare stArot stBrot = Except.ok scRotEx ∧
    ((∃ p, scRotEx.position = Except.ok p) ∧ (∃ r, scRotEx.range = Except.ok r) ∧
    (scRotEx.velocity = Except.error (OemError.unsupported requireInertialMsg) ↔
      pyUpper stArot.frame ∈ REFERENCE_FRAMES_rotating) ∧
    (scRotEx.velocity_ric = Except.error (OemError.unsupported requireInertialMsg) ↔
      pyUpper stArot.frame ∈ REFERENCE_FRAMES_rotating) ∧
    (scRotEx.range_rate = Except.error (OemError.unsupported requireInertialMsg) ↔
      pyUpper stArot.frame ∈ REFERENCE_FRAMES_rotating)) :=
  ⟨by rfl, C2_velocity_guards_iff_rotating stArot stBrot scRotEx (by rfl)⟩

/-- Counterexample for C3: a pair differing only in epoch and a pair
differing only in frame produce the same error value, with the same fixed
message, so the raised error does not identify which of the fields
disagree. -/
theorem C3_counterexample :
    mkStateCompare stA stEpochDiff = mkStateCompare stA stFrameDiff ∧
    mkStateCompare stA stEpochDiff
      = Except.error (OemError.incompatibleStates stateCompareMsg) ∧
    (stA.epoch ≠ stEpochDiff.epoch ∧ stA.frame = stEpochDiff.frame ∧
      stA.center = stEpochDiff.center) ∧
    (stA.epoch = stFrameDiff.epoch ∧ stA.frame ≠ stFrameDiff.frame ∧
      stA.center = stFrameDiff.center) :=
  ⟨by rfl, by rfl, ⟨by decide, rfl, rfl⟩, ⟨rfl, by decide, rfl⟩⟩

/-- Claim C3 (amended): StateCompare construction fails, with the
incompatible-states error and its fixed message, exactly when any of epoch,
frame or center differ between origin and target; on success all three
fields agree, so no comparison object is produced from mismatched inputs. -/
theorem C3_construction_fails_iff_mismatch (o t : State) :
    (mkStateCompare o t = Except.error (OemError.incompatibleStates stateCompareMsg)
      ↔ ¬ (o.epoch = t.epoch ∧ o.frame = t.frame ∧ o.center = t.center)) ∧
    (∀ sc, mkStateCompare o t = Except.ok sc →
      o.epoch = t.epoch ∧ o.frame = t.frame ∧ o.center = t.center) := by
  constructor
  · unfold mkStateCompare
    by_cases hc : o.epoch = t.epoch ∧ o.frame = t.frame ∧ o.center = t.center <;>
      simp [hc]
  · intro sc h
    exact (mkStateCompare_ok_inv h).2

/-- Witness for C3 at the concrete mismatching pair stA and stEpochDiff. -/
theorem C3_witness :
    ¬ (stA.epoch = stEpochDiff.epoch ∧ stA.frame = stEpochDiff.frame ∧
        stA.center = stEpochDiff.center) ∧
    mkStateCompare stA stEpochDiff
      = Except.error (OemError.incompatibleStates stateCompareMsg) :=
  ⟨by decide, (C3_construction_fails_iff_mismatch stA stEpochDiff).1.mpr (by decide)⟩

/-- Claim C4: the frame classification is case-insensitive: identifiers in
the inertial set classify inertial with no warning, identifiers in the
rotating set classify rotating with no warning, and all other identifiers
classify inertial with the non-fatal warning surfaced. -/
theorem C4_frame_classification (f : String) :
    (pyUpper f ∈ REFERENCE_FRAMES_inertial → classifyFrame f = (true, false)) ∧
    (pyUpper f ∈ REFERENCE_FRAMES_rotating → classifyFrame f = (false, false)) ∧
    (pyUpper f ∉ REFERENCE_FRAMES_inertial ∧ pyUpper f ∉ REFERENCE_FRAMES_rotating →
      classifyFrame f = (true, true)) := by
  refine ⟨fun h1 => ?_, fun h2 => ?_, fun h3 => ?_⟩
  · simp [classifyFrame, h1]
  · have hni : pyUpper f ∉ REFERENCE_FRAMES_inertial := fun hi => inertial_not_rotating hi h2
    simp [classifyFrame, h2, hni]
  · simp [classifyFrame, h3.1, h3.2]

/-- Witness for C4 at one lower-case inertial identifier, one lower-case
rotating identifier, and one unrecognized identifier. -/
theorem C4_witness :
    classifyFrame "gcrf" = (true, false) ∧
    classifyFrame "itrf-93" = (false, false) ∧
    classifyFrame "J2000X" = (true, true) :=
  ⟨(C4_frame_classification "gcrf").1 (by decide),
   (C4_frame_classification "itrf-93").2.1 (by decide),
   (C4_frame_classification "J2000X").2.2 (by decide)⟩

lemma mkStateCompare_ne_outOfRange (a b : State) (e : ℚ) :
    mkStateCompare a b ≠ Except.error (OemError.outOfRange e) := by
  unfold mkStateCompare
  by_cases hc : a.epoch = b.epoch ∧ a.frame = b.frame ∧ a.center = b.center <;>
    simp [hc, stateCompareMsg]

/-- Counterexample for C5: two segment compares over the same segments but
with different overlap spans fail on the same out-of-range epoch with
identical error values, so the raised error does not name the overlap
span. -/
theorem C5_counterexample :
    scPairEx.call 9 = Except.error (OemError.outOfRange 9) ∧
    scSpanB.call 9 = Except.error (OemError.outOfRange 9) ∧
    scPairEx.call 9 = scSpanB.call 9 ∧
    scPairEx._span ≠ scSpanB._span :=
  ⟨by rfl, by rfl, by rfl, by decide⟩

/-- Claim C5 (amended): evaluating a SegmentCompare at an epoch fails with
the out-of-range error carrying that epoch exactly when the epoch is not
contained in the overlap; evaluation is a pure function of the compare, so a
failing call leaves it unchanged. -/
theorem C5_evaluate_out_of_range_iff (sc : SegmentCompare) (e : ℚ) :
    sc.call e = Except.error (OemError.outOfRange e) ↔ sc.contains e = false := by
  unfold SegmentCompare.call
  cases hb : sc.contains e with
  | false => simp
  | true => simp [State.sub, mkStateCompare_ne_outOfRange]

/-- The StateCompare produced by evaluating scPairEx at epoch 1: the target
segment state becomes the compare-frame origin. -/
def scC6 : StateCompare := ⟨segTA.eval 1, segOA.eval 1, true⟩

/-- Counterexample for C6: at epoch 1 inside the overlap of scPairEx, the
returned compare's position is the origin segment state minus the target
segment state, not target minus origin as claimed. -/
theorem C6_counterexample :
    scPairEx.contains 1 = true ∧
    scPairEx.call 1 = Except.ok scC6 ∧
    scC6.position = Except.ok (Vec3.mk (-3) 0 0) ∧
    Vec3.sub ((segTA.eval 1).position) ((segOA.eval 1).position) = Vec3.mk 3 0 0 ∧
    Vec3.mk (-3) 0 0 ≠ Vec3.mk 3 0 0 := by
  refine ⟨by rfl, by rfl, ?_, ?_, ?_⟩
  · show Except.ok (Vec3.sub ((segOA.eval 1).position) ((segTA.eval 1).position)) = _
    simp only [segOA, segTA, Vec3.sub]
    norm_num
  · simp only [segOA, segTA, Vec3.sub]
    norm_num
  · simp only [ne_eq, Vec3.mk.injEq]
    norm_num

/-- Claim C6 (amended): evaluating a SegmentCompare at a contained epoch
evaluates both segments there and constructs a StateCompare from the two
evaluated states, with the target segment state as the compare-frame origin,
so the resulting position is the origin segment state position minus the
target segment state position. -/
theorem C6_evaluate_differences_states (sc : SegmentCompare) (e : ℚ)
    (h : sc.contains e = true) :
    sc.call e = mkStateCompare (sc._target.eval e) (sc._origin.eval e) ∧
    (∀ c, sc.call e = Except.ok c →
      c.position = Except.ok
        (Vec3.sub ((sc._origin.eval e).position) ((sc._target.eval e).position))) := by
  have h1 : sc.call e = State.sub (sc._target.eval e) (sc._origin.eval e) := by
    unfold SegmentCompare.call
    simp [h]
  refine ⟨h1, fun c hc => ?_⟩
  rw [h1] at hc
  obtain ⟨rfl, -, -, -⟩ := mkStateCompare_ok_inv hc
  rfl

/-- Witness for C6 at the concrete compare scPairEx and epoch 1. -/
theorem C6_witness :
    scPairEx.contains 1 = true ∧
    scPairEx.call 1 = mkStateCompare (scPairEx._target.eval 1) (scPairEx._origin.eval 1) :=
  ⟨by rfl, (C6_evaluate_differences_states scPairEx 1 (by rfl)).1⟩

lemma call_error_cases (sc : SegmentCompare) (e : ℚ) (err : OemError)
    (h : sc.call e = Except.error err) :
    err = OemError.outOfRange e ∨ err = OemError.incompatibleStates stateCompareMsg := by
  unfold SegmentCompare.call at h
  by_cases hb : sc.contains e = false
  · rw [if_pos hb] at h
    exact Or.inl (Except.error.inj h).symm
  · rw [if_neg hb] at h
    unfold State.sub mkStateCompare at h
    by_cases hc : (sc._target.eval e).epoch = (sc._origin.eval e).epoch ∧
        (sc._target.eval e).frame = (sc._origin.eval e).frame ∧
        (sc._target.eval e).center = (sc._origin.eval e).center
    · rw [if_pos hc] at h
      exact absurd h (by simp)
    · rw [if_neg hc] at h
      exact Or.inr (Except.error.inj h).symm

lemma evalSteps_ne_invalidStep (sc : SegmentCompare) (l : List ℚ) :
    evalSteps sc l ≠ Except.error OemError.invalidStepSize := by
  induction l with
  | nil => simp [evalSteps]
  | cons e rest ih =>
    unfold evalSteps
    cases hc : sc.call e with
    | error err =>
      rcases call_error_cases sc e err hc with h1 | h1 <;> subst h1 <;> simp
    | ok c =>
      cases hr : evalSteps sc rest with
      | error err2 =>
        rw [hr] at ih
        exact ih
      | ok cs => simp

/-- Counterexample for C7: on a SegmentCompare with empty overlap, a
non-positive step size does not fail with the invalid-step error; the span
unpacking fails first, with a different error. -/
theorem C7_counterexample :
    mkSegmentCompare segE1 segE2 = Except.ok scEmptyEx ∧
    scEmptyEx.steps (-1) = Except.error OemError.spanUnpack ∧
    OemError.spanUnpack ≠ OemError.invalidStepSize :=
  ⟨by rfl, by rfl, by decide⟩

/-- Claim C7 (amended): on a SegmentCompare with a non-empty overlap span,
steps fails with the invalid-step error exactly when the step size is
non-positive; and whenever steps succeeds in producing a sequence the step
size was positive. -/
theorem C7_steps_requires_positive_step (sc : SegmentCompare) (step : ℚ) :
    (∀ a b, sc._span = some (a, b) →
      (sc.steps step = Except.error OemError.invalidStepSize ↔ step ≤ 0)) ∧
    ((sc.steps step).isOk = true → 0 < step) := by
  obtain ⟨sp, so, st⟩ := sc
  constructor
  · intro a b hs
    cases sp with
    | none => exact absurd hs (by simp)
    | some ab =>
      obtain rfl : ab = (a, b) := by simpa using hs
      by_cases hstep : step ≤ 0
      · simp [SegmentCompare.steps, time_range, hstep]
      · simp [SegmentCompare.steps, time_range, hstep,
          evalSteps_ne_invalidStep]
  · intro hok
    cases sp with
    | none => simp [SegmentCompare.steps, Except.isOk, Except.toBool] at hok
    | some ab =>
      obtain ⟨a, b⟩ := ab
      by_cases hstep : step ≤ 0
      · simp [SegmentCompare.steps, time_range, hstep, Except.isOk,
          Except.toBool] at hok
      · exact lt_of_not_le hstep

/-- Witness for C7 at the concrete compare scPairEx with step size -1. -/
theorem C7_witness :
    scPairEx._span = some (1, 2) ∧
    scPairEx.steps (-1) = Except.error OemError.invalidStepSize :=
  ⟨rfl, ((C7_steps_requires_positive_step scPairEx (-1)).1 1 2 rfl).mpr (by decide)⟩

/-- Claim C10: on a SegmentCompare whose overlap is empty, steps fails for
every step size with the error from unpacking the absent span, and in
particular never yields the empty sequence. -/
theorem C10_empty_steps_fails (sc : SegmentCompare) (step : ℚ)
    (h : sc.is_empty = true) :
    sc.steps step = Except.error OemError.spanUnpack ∧
    sc.steps step ≠ Except.ok [] := by
  obtain ⟨sp, so, st⟩ := sc
  cases sp with
  | none => exact ⟨rfl, by simp [SegmentCompare.steps]⟩
  | some ab => simp [SegmentCompare.is_empty] at h

/-- Witness for C10 at the concrete empty compare scEmptyEx with step
size 5. -/
theorem C10_witness :
    scEmptyEx.is_empty = true ∧
    scEmptyEx.steps 5 = Except.error OemError.spanUnpack ∧
    scEmptyEx.steps 5 ≠ Except.ok [] :=
  ⟨rfl, (C10_empty_steps_fails scEmptyEx 5 rfl).1,
    (C10_empty_steps_fails scEmptyEx 5 rfl).2⟩

/-- Counterexample for C8: accessing position_ric on rotating-frame compares
built from two different frames fails with identical error values carrying
the same fixed message, so the error does not name the requested quantity or
the frame. -/
theorem C8_counterexample :
    mkStateCompare stArot stBrot = Except.ok scRotEx ∧
    mkStateCompare stTdrA stTdrB = Except.ok scTdrEx ∧
    scRotEx.position_ric = Except.error (OemError.unsupported requireInertialMsg) ∧
    scTdrEx.position_ric = Except.error (OemError.unsupported requireInertialMsg) ∧
    scRotEx._origin.frame ≠ scTdrEx._origin.frame :=
  ⟨by rfl, by rfl, by rfl, by rfl, by decide⟩

/-- Claim C8 (amended): on a validly constructed StateCompare with no
override, position_ric fails, with the fixed unsupported-operation message,
exactly when the origin frame is classified rotating, and produces a value
exactly when the origin frame is classified inertial. -/
theorem C8_position_ric_requires_inertial (o t : State) (sc : StateCompare)
    (h : mkStateCompare o t = Except.ok sc) :
    (sc.position_ric = Except.error (OemError.unsupported requireInertialMsg) ↔
      pyUpper o.frame ∈ REFERENCE_FRAMES_rotating) ∧
    ((∃ r, sc.position_ric = Except.ok r) ↔ (classifyFrame o.frame).1 = true) := by
  obtain ⟨rfl, -, -, -⟩ := mkStateCompare_ok_inv h
  have hrot := classifyFrame_fst_false_iff o.frame
  cases hb : (classifyFrame o.frame).1 <;>
    simp [StateCompare.position_ric, StateCompare.position, StateCompare.toRic,
      StateCompare.requireInertial, hb, ← hrot]

/-- Witness for C8 at the concrete rotating-frame compare scRotEx. -/
theorem C8_witness :
    mkStateCompare stArot stBrot = Except.ok scRotEx ∧
    scRotEx.position_ric = Except.error (OemError.unsupported requireInertialMsg) :=
  ⟨by rfl,
    (C8_position_ric_requires_inertial stArot stBrot scRotEx (by rfl)).1.mpr
      (by decide)⟩

lemma Vec3.dot_cross_self (a b : Vec3) : Vec3.dot a (Vec3.cross a b) = 0 := by
  simp only [Vec3.dot, Vec3.cross]
  ring

lemma Vec3.dot_cross_right_self (a b : Vec3) : Vec3.dot a (Vec3.cross b a) = 0 := by
  simp only [Vec3.dot, Vec3.cross]
  ring

lemma Vec3.dot_cross_left (a b : Vec3) : Vec3.dot (Vec3.cross a b) a = 0 := by
  simp only [Vec3.dot, Vec3.cross]
  ring

lemma Vec3.dot_divs (a b : Vec3) (c d : ℝ) :
    Vec3.dot (Vec3.divs a c) (Vec3.divs b d) = Vec3.dot a b / (c * d) := by
  simp only [Vec3.dot, Vec3.divs]
  ring

lemma Vec3.sumsq_nonneg (v : Vec3) : 0 ≤ v.x ^ 2 + v.y ^ 2 + v.z ^ 2 := by
  positivity

lemma Vec3.sumsq_pos (v : Vec3) (h : v ≠ Vec3.mk 0 0 0) :
    0 < v.x ^ 2 + v.y ^ 2 + v.z ^ 2 := by
  rcases (Vec3.sumsq_nonneg v).lt_or_eq with hlt | heq
  · exact hlt
  · exfalso
    apply h
    have hx : v.x = 0 := by
      have hx2 : v.x ^ 2 = 0 :=
        le_antisymm (by nlinarith [sq_nonneg v.y, sq_nonneg v.z]) (sq_nonneg v.x)
      exact sq_eq_zero_iff.mp hx2
    have hy : v.y = 0 := by
      have hy2 : v.y ^ 2 = 0 :=
        le_antisymm (by nlinarith [sq_nonneg v.x, sq_nonneg v.z]) (sq_nonneg v.y)
      exact sq_eq_zero_iff.mp hy2
    have hz : v.z = 0 := by
      have hz2 : v.z ^ 2 = 0 :=
        le_antisymm (by nlinarith [sq_nonneg v.x, sq_nonneg v.y]) (sq_nonneg v.z)
      exact sq_eq_zero_iff.mp hz2
    obtain ⟨a, b, c⟩ := v
    simp only [Vec3.mk.injEq]
    exact ⟨hx, hy, hz⟩

lemma ne_zero_of_sumsq_pos (v : Vec3) (h : 0 < v.x ^ 2 + v.y ^ 2 + v.z ^ 2) :
    v ≠ Vec3.mk 0 0 0 := by
  intro h0
  rw [h0] at h
  norm_num at h

lemma vnorm_pos (v : Vec3) (h : v ≠ Vec3.mk 0 0 0) : 0 < vnorm v :=
  Real.sqrt_pos.mpr (Vec3.sumsq_pos v h)

lemma vnorm_sq (v : Vec3) : vnorm v ^ 2 = v.x ^ 2 + v.y ^ 2 + v.z ^ 2 :=
  Real.sq_sqrt (Vec3.sumsq_nonneg v)

lemma vnorm_divs_self (v : Vec3) (h : v ≠ Vec3.mk 0 0 0) :
    vnorm (Vec3.divs v (vnorm v)) = 1 := by
  have hpos := vnorm_pos v h
  have hsq := vnorm_sq v
  have hne : vnorm v ≠ 0 := ne_of_gt hpos
  have key : (v.x / vnorm v) ^ 2 + (v.y / vnorm v) ^ 2 + (v.z / vnorm v) ^ 2 = 1 := by
    field_simp
    linarith [hsq]
  calc vnorm (Vec3.divs v (vnorm v))
      = Real.sqrt ((v.x / vnorm v) ^ 2 + (v.y / vnorm v) ^ 2 + (v.z / vnorm v) ^ 2) := rfl
    _ = 1 := by rw [key, Real.sqrt_one]

lemma in_track_ne_zero (p v : Vec3) (hp : p ≠ Vec3.mk 0 0 0)
    (hw : Vec3.cross p v ≠ Vec3.mk 0 0 0) :
    Vec3.cross (Vec3.cross p v) p ≠ Vec3.mk 0 0 0 := by
  apply ne_zero_of_sumsq_pos
  have hlag :
      (Vec3.cross (Vec3.cross p v) p).x ^ 2 + (Vec3.cross (Vec3.cross p v) p).y ^ 2
        + (Vec3.cross (Vec3.cross p v) p).z ^ 2
      = ((Vec3.cross p v).x ^ 2 + (Vec3.cross p v).y ^ 2 + (Vec3.cross p v).z ^ 2)
        * (p.x ^ 2 + p.y ^ 2 + p.z ^ 2)
        - (Vec3.dot (Vec3.cross p v) p) ^ 2 := by
    simp only [Vec3.dot, Vec3.cross]
    ring
  rw [hlag, Vec3.dot_cross_left]
  simpa using mul_pos (Vec3.sumsq_pos _ hw) (Vec3.sumsq_pos p hp)

/-- Claim C9: for an origin state with non-zero, non-parallel position and
velocity, the three rows of the RIC rotation (radial, in-track, cross-track)
are mutually orthogonal unit vectors. -/
theorem C9_ric_rows_orthonormal (origin : State)
    (hp : origin.position ≠ Vec3.mk 0 0 0)
    (hv : origin.velocity ≠ Vec3.mk 0 0 0)
    (hnp : Vec3.cross origin.position origin.velocity ≠ Vec3.mk 0 0 0) :
    (Vec3.dot (ricRows origin).1 (ricRows origin).2.1 = 0 ∧
     Vec3.dot (ricRows origin).1 (ricRows origin).2.2 = 0 ∧
     Vec3.dot (ricRows origin).2.1 (ricRows origin).2.2 = 0) ∧
    (vnorm (ricRows origin).1 = 1 ∧
     vnorm (ricRows origin).2.1 = 1 ∧
     vnorm (ricRows origin).2.2 = 1) := by
  have hS : Vec3.cross (Vec3.cross origin.position origin.velocity) origin.position
      ≠ Vec3.mk 0 0 0 :=
    in_track_ne_zero origin.position origin.velocity hp hnp
  have hrows : ricRows origin =
      (Vec3.divs origin.position (vnorm origin.position),
       Vec3.divs (Vec3.cross (Vec3.cross origin.position origin.velocity) origin.position)
         (vnorm (Vec3.cross (Vec3.cross origin.position origin.velocity) origin.position)),
       Vec3.divs (Vec3.cross origin.position origin.velocity)
         (vnorm (Vec3.cross origin.position origin.velocity))) := rfl
  rw [hrows]
  refine ⟨⟨?_, ?_, ?_⟩, ?_, ?_, ?_⟩
  · rw [Vec3.dot_divs, Vec3.dot_cross_right_self, zero_div]
  · rw [Vec3.dot_divs, Vec3.dot_cross_self, zero_div]
  · rw [Vec3.dot_divs, Vec3.dot_cross_left, zero_div]
  · exact vnorm_divs_self _ hp
  · exact vnorm_divs_self _ hS
  · exact vnorm_divs_self _ hnp

/-- Witness for C9 at the concrete state stRic. -/
theorem C9_witness :
    stRic.position ≠ Vec3.mk 0 0 0 ∧ stRic.velocity ≠ Vec3.mk 0 0 0 ∧
    Vec3.cross stRic.position stRic.velocity ≠ Vec3.mk 0 0 0 ∧
    ((Vec3.dot (ricRows stRic).1 (ricRows stRic).2.1 = 0 ∧
      Vec3.dot (ricRows stRic).1 (ricRows stRic).2.2 = 0 ∧
      Vec3.dot (ricRows stRic).2.1 (ricRows stRic).2.2 = 0) ∧
     (vnorm (ricRows stRic).1 = 1 ∧
      vnorm (ricRows stRic).2.1 = 1 ∧
      vnorm (ricRows stRic).2.2 = 1)) := by
  have h1 : stRic.position ≠ Vec3.mk 0 0 0 := by
    simp [stRic, Vec3.mk.injEq]
  have h2 : stRic.velocity ≠ Vec3.mk 0 0 0 := by
    simp [stRic, Vec3.mk.injEq]
  have h3 : Vec3.cross stRic.position stRic.velocity ≠ Vec3.mk 0 0 0 := by
    simp [stRic, Vec3.cross, Vec3.mk.injEq]
  exact ⟨h1, h2, h3, C9_ric_rows_orthonormal stRic h1 h2 h3⟩
